import Mathlib

/-
Verification of the levelup-ai-microservice diet/workout plan logic.

The embedded code is the DietService / DietController pair (src/unnamed/part_001)
and the WorkoutService regeneration merge (src/unnamed/part_000).  JavaScript
numbers are idealized as exact rationals (ℚ) for finite arithmetic; the stored
plan fields are integers (ℤ).  A small extended-number type JsNum captures the
JavaScript behaviour of division by zero (Infinity / NaN) where the finite
idealization does not apply.  Store and AI-provider calls are external
collaborators: the store is a lookup function, store traffic is recorded as an
explicit operation list, and the provider's draft response is an argument.
-/

namespace LevelUpAI

/-- JavaScript `Math.round` on a rational value: round half toward positive
infinity, that is `⌊q + 1/2⌋`. -/
def jsRound (q : ℚ) : ℤ := ⌊q + 1/2⌋

/-- JavaScript `m || d` for an optional number `m` (`undefined` and `0` are
falsy, any other integer is truthy). Used by the regeneration merges and by
`calculateTotalMacros` (`meal.macros.fiber || 0`). -/
def jsOrInt (m : Option ℤ) (d : ℤ) : ℤ :=
  match m with
  | some n => if n = 0 then d else n
  | none => d

/-- JavaScript `m || d` for an optional string (`undefined` and `""` are falsy). -/
def jsOrStr (m : Option String) (d : String) : String :=
  match m with
  | some s => if s = "" then d else s
  | none => d

/-- JavaScript `m || d` for an optional array: every array, even the empty one,
is truthy, so a present array is always taken. -/
def jsOrList (m : Option (List String)) (d : List String) : List String :=
  match m with
  | some l => l
  | none => d

/-- NutritionItem shape, from the controller's documented schema
(src/unnamed/part_001 lines 30-46) and the item scaling in `adjustCalories`:
name, quantity (display string), required calories, optional protein/carbs/fat. -/
structure NutritionItem where
  name : String
  quantity : String
  calories : ℤ
  protein : Option ℤ
  carbs : Option ℤ
  fat : Option ℤ
deriving DecidableEq, Inhabited

/-- Per-meal macro record (src/unnamed/part_001 lines 49-54 and 296-301):
protein/carbs/fat required, fiber optional. -/
structure MealMacros where
  protein : ℤ
  carbs : ℤ
  fat : ℤ
  fiber : Option ℤ
deriving DecidableEq, Inhabited

/-- Meal shape (src/unnamed/part_001 lines 27-55 and 286-302). -/
structure Meal where
  name : String
  items : List NutritionItem
  totalCalories : ℤ
  macros : MealMacros
deriving DecidableEq, Inhabited

/-- Aggregate macros of a whole plan, as produced by `calculateTotalMacros`:
all four fields, fiber included, are plain numbers. -/
structure TargetMacros where
  protein : ℤ
  carbs : ℤ
  fat : ℤ
  fiber : ℤ
deriving DecidableEq, Inhabited

/-- DietPlan shape as used by DietService (src/unnamed/part_001 lines 199-208
and 305-310): id assigned by the store (absent before the first save). -/
structure DietPlan where
  id : Option String
  userId : String
  name : String
  description : String
  goal : String
  totalCalories : ℤ
  targetMacros : TargetMacros
  meals : List Meal
  restrictions : List String
deriving DecidableEq, Inhabited

/-- The `reduce` in `DietService.calculateTotalMacros` (src/unnamed/part_001
lines 325-335): left fold over the meals summing protein, carbs, fat, and
`macros.fiber || 0`, starting from all-zero totals. -/
def calculateTotalMacros (meals : List Meal) : TargetMacros :=
  meals.foldl
    (fun total meal =>
      { protein := total.protein + meal.macros.protein
        carbs := total.carbs + meal.macros.carbs
        fat := total.fat + meal.macros.fat
        fiber := total.fiber + jsOrInt meal.macros.fiber 0 })
    { protein := 0, carbs := 0, fat := 0, fiber := 0 }

/-- The `scalingFactor` local of `DietService.adjustCalories`
(src/unnamed/part_001 line 283): `newCalories / existingPlan.totalCalories`. -/
def scalingFactor (plan : DietPlan) (newCalories : ℤ) : ℚ :=
  (newCalories : ℚ) / (plan.totalCalories : ℚ)

/-- The expression `x ? Math.round(x * scalingFactor) : undefined` applied to an
optional macro value `x` (src/unnamed/part_001 lines 292-294 and 300): a present
nonzero value is scaled and rounded, an absent or present-zero (falsy) value
yields `undefined`. -/
def scaleIfTruthy (factor : ℚ) (x : Option ℤ) : Option ℤ :=
  match x with
  | some n => if n ≠ 0 then some (jsRound ((n : ℚ) * factor)) else none
  | none => none

/-- The item scaling inside `adjustCalories` (src/unnamed/part_001 lines 289-295). -/
def adjustedItem (factor : ℚ) (item : NutritionItem) : NutritionItem :=
  { item with
    calories := jsRound ((item.calories : ℚ) * factor)
    protein := scaleIfTruthy factor item.protein
    carbs := scaleIfTruthy factor item.carbs
    fat := scaleIfTruthy factor item.fat }

/-- The meal scaling inside `adjustCalories` (src/unnamed/part_001 lines 286-302). -/
def adjustedMeal (factor : ℚ) (meal : Meal) : Meal :=
  { meal with
    totalCalories := jsRound ((meal.totalCalories : ℚ) * factor)
    items := meal.items.map (adjustedItem factor)
    macros :=
      { protein := jsRound ((meal.macros.protein : ℚ) * factor)
        carbs := jsRound ((meal.macros.carbs : ℚ) * factor)
        fat := jsRound ((meal.macros.fat : ℚ) * factor)
        fiber := scaleIfTruthy factor meal.macros.fiber } }

/-- The `adjustedPlan` object built by `DietService.adjustCalories`
(src/unnamed/part_001 lines 282-310): spread of the existing plan with the new
calorie total, the scaled meals, and the recomputed aggregate macros. -/
def adjustedPlan (plan : DietPlan) (newCalories : ℤ) : DietPlan :=
  let factor := scalingFactor plan newCalories
  let adjustedMeals := plan.meals.map (adjustedMeal factor)
  { plan with
    totalCalories := newCalories
    meals := adjustedMeals
    targetMacros := calculateTotalMacros adjustedMeals }

/-- Modelled from the spec: the response envelope of `shared/utils/api-response`
(not under src/); section 6 of the spec fixes it as success flag, data, error and
message fields, the last three optional. -/
structure ApiResponse (α : Type) where
  success : Bool
  data : Option α
  error : Option String
  message : Option String
deriving DecidableEq

/-- Modelled from the spec: `createSuccessResponse(data, message?)` of
`shared/utils/api-response` (not under src/) builds the success envelope. -/
def createSuccessResponse {α : Type} (d : α) (msg : Option String) : ApiResponse α :=
  { success := true, data := some d, error := none, message := msg }

/-- Modelled from the spec: `createErrorResponse(error, message)` of
`shared/utils/api-response` (not under src/) builds the failure envelope, the
first argument carrying the underlying cause and the second the fixed summary. -/
def createErrorResponse {α : Type} (err : String) (msg : String) : ApiResponse α :=
  { success := false, data := none, error := some err, message := some msg }

/-- Store traffic performed by a service call, recorded in order. -/
inductive StoreOp where
  | getDiet (planId : String)
  | saveDiet (plan : DietPlan)
deriving DecidableEq

/-- Generation request shape `GenerateDietDto` as consumed by DietService:
userId, calories and goal required, the remaining fields optional prompt
material (spec section 3; usage at src/unnamed/part_001 lines 199-262). -/
structure GenerateDietDto where
  userId : String
  calories : ℤ
  goal : String
  restrictions : Option (List String)
  mealsPerDay : Option ℤ
  targetProtein : Option ℤ
  preferredFoods : Option (List String)
  avoidFoods : Option (List String)
  preferences : Option String
deriving DecidableEq, Inhabited

/-- The TypeScript `Partial` of `GenerateDietDto`: every field optional,
userId included (the regeneration body may carry one). -/
structure DietMods where
  userId : Option String
  calories : Option ℤ
  goal : Option String
  restrictions : Option (List String)
  mealsPerDay : Option ℤ
  targetProtein : Option ℤ
  preferredFoods : Option (List String)
  avoidFoods : Option (List String)
  preferences : Option String
deriving DecidableEq, Inhabited

/-- A diet modifications record with every field unset. -/
def emptyDietMods : DietMods :=
  { userId := none, calories := none, goal := none, restrictions := none
    mealsPerDay := none, targetProtein := none, preferredFoods := none
    avoidFoods := none, preferences := none }

/-- The `updatedDto` merge of `DietService.regenerateDiet` (src/unnamed/part_001
lines 252-262): userId from the existing plan, calories/goal/restrictions via
JavaScript `||` against the existing plan's totalCalories/goal/restrictions, and
the prompt-only fields passed through from the modifications. -/
def regenerateDietDto (existingPlan : DietPlan) (modifications : DietMods) :
    GenerateDietDto :=
  { userId := existingPlan.userId
    calories := jsOrInt modifications.calories existingPlan.totalCalories
    goal := jsOrStr modifications.goal existingPlan.goal
    restrictions := some (jsOrList modifications.restrictions existingPlan.restrictions)
    mealsPerDay := modifications.mealsPerDay
    targetProtein := modifications.targetProtein
    preferredFoods := modifications.preferredFoods
    avoidFoods := modifications.avoidFoods
    preferences := modifications.preferences }

/-- Draft plan returned by an AI provider for a diet request
(src/unnamed/part_001 lines 188-206): name, description and meals. -/
structure AiDietResponse where
  name : String
  description : String
  meals : List Meal
deriving DecidableEq, Inhabited

/-- The `dietPlan` object built by `DietService.generateDiet`
(src/unnamed/part_001 lines 199-208): totalCalories is the request's target,
targetMacros the aggregate of the provider's meals, meals taken verbatim. -/
def dietPlanOf (dto : GenerateDietDto) (aiResponse : AiDietResponse) : DietPlan :=
  { id := none
    userId := dto.userId
    name := aiResponse.name
    description := aiResponse.description
    goal := dto.goal
    totalCalories := dto.calories
    targetMacros := calculateTotalMacros aiResponse.meals
    meals := aiResponse.meals
    restrictions := jsOrList dto.restrictions [] }

namespace DietService

/-- The success path of `DietService.generateDiet` (src/unnamed/part_001 lines
180-223), with the provider's draft passed as an argument and the store write
recorded: the built plan is saved and returned in a success envelope. -/
def generateDiet (dto : GenerateDietDto) (aiResponse : AiDietResponse) :
    ApiResponse DietPlan × List StoreOp :=
  let dietPlan := dietPlanOf dto aiResponse
  (createSuccessResponse dietPlan (some "Diet plan generated successfully"),
   [StoreOp.saveDiet dietPlan])

/-- `DietService.adjustCalories` (src/unnamed/part_001 lines 275-323): look the
plan up; on a miss return the not-found error envelope; otherwise scale, save,
and return the adjusted plan. There is no guard on `totalCalories` before the
division at line 283. -/
def adjustCalories (store : String → Option DietPlan) (planId : String)
    (newCalories : ℤ) : ApiResponse DietPlan × List StoreOp :=
  match store planId with
  | none =>
      (createErrorResponse "Diet plan not found"
         "Cannot adjust calories for non-existent plan",
       [StoreOp.getDiet planId])
  | some existingPlan =>
      let adjusted := adjustedPlan existingPlan newCalories
      (createSuccessResponse adjusted (some "Diet plan calories adjusted successfully"),
       [StoreOp.getDiet planId, StoreOp.saveDiet adjusted])

end DietService

namespace DietController

/-- `DietController.adjustCalories` (src/unnamed/part_001 lines 146-159):
`parseInt` of the path parameter is modelled as an optional integer (`none` for
NaN, i.e. a non-numeric parameter); a NaN or out-of-range value is rejected with
the literal error object of lines 152-155 before the service runs, so no store
operation is performed. -/
def adjustCalories (store : String → Option DietPlan) (planId : String)
    (parsedCalories : Option ℤ) : ApiResponse DietPlan × List StoreOp :=
  match parsedCalories with
  | none =>
      ({ success := false, data := none
         error := some "Invalid calories value. Must be between 1000 and 5000."
         message := none }, [])
  | some newCalories =>
      if newCalories < 1000 ∨ newCalories > 5000 then
        ({ success := false, data := none
           error := some "Invalid calories value. Must be between 1000 and 5000."
           message := none }, [])
      else DietService.adjustCalories store planId newCalories

end DietController

/-- WorkoutPlan shape as used by WorkoutService (src/unnamed/part_000 lines
37-46 and 90-99); the exercises payload is opaque to the merge logic. -/
structure WorkoutPlan where
  id : Option String
  userId : String
  name : String
  description : String
  difficulty : String
  goal : String
  daysPerWeek : ℤ
  estimatedDuration : ℤ
  exercises : List String
deriving DecidableEq, Inhabited

/-- Generation request shape `GenerateWorkoutDto` as consumed by WorkoutService
(src/unnamed/part_000 lines 37-46 and 90-99). -/
structure GenerateWorkoutDto where
  userId : String
  goal : String
  difficulty : String
  daysPerWeek : ℤ
  duration : ℤ
  equipment : Option (List String)
  targetMuscles : Option (List String)
  preferences : Option String
deriving DecidableEq, Inhabited

/-- The TypeScript `Partial` of `GenerateWorkoutDto`. -/
structure WorkoutMods where
  userId : Option String
  goal : Option String
  difficulty : Option String
  daysPerWeek : Option ℤ
  duration : Option ℤ
  equipment : Option (List String)
  targetMuscles : Option (List String)
  preferences : Option String
deriving DecidableEq, Inhabited

/-- A workout modifications record with every field unset. -/
def emptyWorkoutMods : WorkoutMods :=
  { userId := none, goal := none, difficulty := none, daysPerWeek := none
    duration := none, equipment := none, targetMuscles := none, preferences := none }

/-- The `updatedDto` merge of `WorkoutService.regenerateWorkout`
(src/unnamed/part_000 lines 90-99): userId from the existing plan, the four
JavaScript `||` merges goal/difficulty/daysPerWeek/duration (the last against
the plan's estimatedDuration), and the prompt-only fields passed through. -/
def regenerateWorkoutDto (existingPlan : WorkoutPlan) (modifications : WorkoutMods) :
    GenerateWorkoutDto :=
  { userId := existingPlan.userId
    goal := jsOrStr modifications.goal existingPlan.goal
    difficulty := jsOrStr modifications.difficulty existingPlan.difficulty
    daysPerWeek := jsOrInt modifications.daysPerWeek existingPlan.daysPerWeek
    duration := jsOrInt modifications.duration existingPlan.estimatedDuration
    equipment := modifications.equipment
    targetMuscles := modifications.targetMuscles
    preferences := modifications.preferences }

/-- A diet modifications record with the userId field replaced by `none`: two
records agree on this erasure exactly when they differ at most in userId. -/
def dropUserIdDiet (m : DietMods) : DietMods := { m with userId := none }

/-- A workout modifications record with the userId field replaced by `none`. -/
def dropUserIdWorkout (m : WorkoutMods) : WorkoutMods := { m with userId := none }

/-- Extended JavaScript number: a finite rational, positive or negative
Infinity, or NaN. -/
inductive JsNum where
  | finite (q : ℚ)
  | posInf
  | negInf
  | nan
deriving DecidableEq

/-- JavaScript division of finite numbers: division by zero yields a signed
Infinity for a nonzero numerator and NaN for `0 / 0`. -/
def jsDiv (a b : ℚ) : JsNum :=
  if b ≠ 0 then JsNum.finite (a / b)
  else if 0 < a then JsNum.posInf
  else if a < 0 then JsNum.negInf
  else JsNum.nan

/-- JavaScript multiplication of a finite integer by an extended number:
`0 * Infinity` is NaN, and NaN propagates. -/
def jsMulInt (n : ℤ) (x : JsNum) : JsNum :=
  match x with
  | JsNum.finite q => JsNum.finite ((n : ℚ) * q)
  | JsNum.posInf => if 0 < n then JsNum.posInf else if n < 0 then JsNum.negInf else JsNum.nan
  | JsNum.negInf => if 0 < n then JsNum.negInf else if n < 0 then JsNum.posInf else JsNum.nan
  | JsNum.nan => JsNum.nan

/-- JavaScript `Math.round` on an extended number: Infinity and NaN pass through. -/
def jsRoundExt : JsNum → JsNum
  | JsNum.finite q => JsNum.finite ((jsRound q : ℤ) : ℚ)
  | x => x

/-- The value `Math.round(item.calories * (newCalories / plan.totalCalories))`
(src/unnamed/part_001 lines 283 and 291) under full JavaScript number
semantics, for use where `plan.totalCalories` may be zero. -/
def scaledCaloriesJs (itemCalories totalCalories newCalories : ℤ) : JsNum :=
  jsRoundExt (jsMulInt itemCalories (jsDiv (newCalories : ℚ) (totalCalories : ℚ)))

/-- A concrete valid diet plan used as a test input: total 2000 kcal, one meal. -/
def samplePlan : DietPlan :=
  { id := some "plan-1", userId := "u1", name := "Sample", description := "d"
    goal := "cut", totalCalories := 2000
    targetMacros := { protein := 11, carbs := 81, fat := 6, fiber := 8 }
    meals :=
      [{ name := "Breakfast"
         items :=
           [{ name := "Oatmeal", quantity := "1 cup", calories := 300
              protein := some 10, carbs := some 54, fat := some 6 }]
         totalCalories := 405
         macros := { protein := 11, carbs := 81, fat := 6, fiber := some 8 } }]
    restrictions := ["vegetarian"] }

/-- A diet plan holding a present-but-zero optional macro: its only item has
`protein = 0` (present), `fat` absent. -/
def zeroMacroPlan : DietPlan :=
  { id := some "plan-3", userId := "u1", name := "Zero", description := "d"
    goal := "cut", totalCalories := 2000
    targetMacros := { protein := 0, carbs := 54, fat := 0, fiber := 0 }
    meals :=
      [{ name := "Lunch"
         items :=
           [{ name := "Rice", quantity := "1 cup", calories := 200
              protein := some 0, carbs := some 54, fat := none }]
         totalCalories := 200
         macros := { protein := 0, carbs := 54, fat := 0, fiber := some 0 } }]
    restrictions := [] }

/-- A stored diet plan whose `totalCalories` is 0: the division-by-zero input. -/
def zeroTotalPlan : DietPlan :=
  { id := some "plan-0", userId := "u1", name := "Empty", description := "d"
    goal := "cut", totalCalories := 0
    targetMacros := { protein := 0, carbs := 0, fat := 0, fiber := 0 }
    meals :=
      [{ name := "Snack"
         items :=
           [{ name := "Apple", quantity := "1", calories := 300
              protein := none, carbs := none, fat := none },
            { name := "Water", quantity := "1 glass", calories := 0
              protein := none, carbs := none, fat := none }]
         totalCalories := 300
         macros := { protein := 0, carbs := 0, fat := 0, fiber := none } }]
    restrictions := [] }

/-- A store holding exactly `zeroTotalPlan` under the id "plan-0". -/
def zeroTotalStore : String → Option DietPlan :=
  fun planId => if planId = "plan-0" then some zeroTotalPlan else none

/-- A 5000 kcal plan whose item protein (2 g) rounds to 0 when rescaled to
1000 kcal: the rescaled plan holds a present-but-zero protein. -/
def idemBreakPlan : DietPlan :=
  { id := some "plan-4", userId := "u1", name := "Bulk", description := "d"
    goal := "bulk", totalCalories := 5000
    targetMacros := { protein := 2, carbs := 100, fat := 10, fiber := 0 }
    meals :=
      [{ name := "Dinner"
         items :=
           [{ name := "Pasta", quantity := "1 plate", calories := 1000
              protein := some 2, carbs := some 100, fat := some 10 }]
         totalCalories := 1000
         macros := { protein := 2, carbs := 100, fat := 10, fiber := none } }]
    restrictions := [] }

/-- A 1000 kcal plan whose doubling to 2000 kcal produces no zero-valued
optional macro, so rescaling it to 2000 twice is the same as once. -/
def idemOkPlan : DietPlan :=
  { id := some "plan-5", userId := "u1", name := "Lean", description := "d"
    goal := "cut", totalCalories := 1000
    targetMacros := { protein := 10, carbs := 0, fat := 5, fiber := 0 }
    meals :=
      [{ name := "Dinner"
         items :=
           [{ name := "Chicken", quantity := "1 breast", calories := 500
              protein := some 10, carbs := none, fat := some 5 }]
         totalCalories := 500
         macros := { protein := 10, carbs := 0, fat := 5, fiber := none } }]
    restrictions := [] }

/-- The existing diet plan of the spec's merge example: userId "u1", goal
"bulk", totalCalories 2500. -/
def mergeDietPlanEx : DietPlan :=
  { id := some "diet-7", userId := "u1", name := "Old", description := "d"
    goal := "bulk", totalCalories := 2500
    targetMacros := { protein := 0, carbs := 0, fat := 0, fiber := 0 }
    meals := [], restrictions := ["vegan"] }

/-- The existing workout plan of the spec's merge example: userId "u1", goal
"bulk", estimatedDuration 45. -/
def mergeWorkoutPlanEx : WorkoutPlan :=
  { id := some "workout-7", userId := "u1", name := "Old", description := "d"
    difficulty := "medium", goal := "bulk", daysPerWeek := 4
    estimatedDuration := 45, exercises := ["squat"] }

/-- Modifications carrying present but falsy fields: an empty-string goal and a
zero calories value. -/
def falsyDietMods : DietMods :=
  { emptyDietMods with goal := some "", calories := some 0 }

/-- The modifications record of the spec's merge example: only goal = "cut". -/
def cutDietMods : DietMods := { emptyDietMods with goal := some "cut" }

/-- The workout counterpart of the merge example's modifications. -/
def cutWorkoutMods : WorkoutMods := { emptyWorkoutMods with goal := some "cut" }

/-- A nutrition item holds no present-but-zero optional macro. -/
def itemNoZeroOpt (item : NutritionItem) : Prop :=
  item.protein ≠ some 0 ∧ item.carbs ≠ some 0 ∧ item.fat ≠ some 0

instance (item : NutritionItem) : Decidable (itemNoZeroOpt item) := by
  unfold itemNoZeroOpt; infer_instance

/-- A meal holds no present-but-zero optional macro (fiber, or any item field). -/
def mealNoZeroOpt (meal : Meal) : Prop :=
  meal.macros.fiber ≠ some 0 ∧ ∀ item ∈ meal.items, itemNoZeroOpt item

instance (meal : Meal) : Decidable (mealNoZeroOpt meal) := by
  unfold mealNoZeroOpt; infer_instance

/-- A plan holds no present-but-zero optional macro anywhere. -/
def planNoZeroOpt (plan : DietPlan) : Prop :=
  ∀ meal ∈ plan.meals, mealNoZeroOpt meal

instance (plan : DietPlan) : Decidable (planNoZeroOpt plan) := by
  unfold planNoZeroOpt; infer_instance

/-- Rounding an integer-valued rational returns the integer. -/
theorem jsRound_intCast (n : ℤ) : jsRound ((n : ℚ)) = n := by
  unfold jsRound
  rw [Int.floor_int_add]
  norm_num

/-- Scaling by factor 1 and rounding is the identity on integers. -/
theorem jsRound_mul_one (n : ℤ) : jsRound ((n : ℚ) * 1) = n := by
  rw [mul_one]; exact jsRound_intCast n

/-- At factor 1 the truthiness-guarded scaling is the identity on every optional
value that is not a present zero. -/
theorem scaleIfTruthy_one (x : Option ℤ) (h : x ≠ some 0) : scaleIfTruthy 1 x = x := by
  cases x with
  | none => rfl
  | some n =>
      have hn : n ≠ 0 := fun h0 => h (by rw [h0])
      simp [scaleIfTruthy, hn, jsRound_intCast]

/-- A pointwise-identity map is the identity. -/
theorem map_self_of_mem {α : Type} (l : List α) (f : α → α) (h : ∀ a ∈ l, f a = a) :
    l.map f = l := by
  induction l with
  | nil => rfl
  | cons x xs ih =>
      simp only [List.map_cons, List.cons.injEq]
      exact ⟨h x (by simp), ih (fun a ha => h a (by simp [ha]))⟩

/-- At factor 1 the item scaling is the identity on items with no present-zero
optional macro. -/
theorem adjustedItem_one (item : NutritionItem) (h : itemNoZeroOpt item) :
    adjustedItem 1 item = item := by
  obtain ⟨hp, hc, hf⟩ := h
  cases item with
  | mk nm qty cal p c f =>
      simp [adjustedItem, jsRound_intCast, scaleIfTruthy_one p hp,
        scaleIfTruthy_one c hc, scaleIfTruthy_one f hf]

/-- At factor 1 the meal scaling is the identity on meals with no present-zero
optional macro. -/
theorem adjustedMeal_one (meal : Meal) (h : mealNoZeroOpt meal) :
    adjustedMeal 1 meal = meal := by
  obtain ⟨hfib, hitems⟩ := h
  cases meal with
  | mk nm its tot mac =>
      cases mac with
      | mk mp mc mf mfib =>
          simp [adjustedMeal, jsRound_intCast, scaleIfTruthy_one _ hfib,
            map_self_of_mem its _ (fun i hi => adjustedItem_one i (hitems i hi))]

/-- C1: for every diet plan with positive stored total and every target in
[1000, 5000], the rescale builds a plan whose totalCalories is exactly the
target, whose meals are the factor-scaled meals, whose targetMacros is the
aggregate recomputed from those scaled meals, and whose id, userId, name,
description, goal and restrictions are unchanged from the input plan. -/
theorem adjustedPlan_rescale_exact (plan : DietPlan) (target : ℤ)
    (_hpos : 0 < plan.totalCalories) (_hlo : 1000 ≤ target) (_hhi : target ≤ 5000) :
    (adjustedPlan plan target).totalCalories = target ∧
    (adjustedPlan plan target).meals =
      plan.meals.map (adjustedMeal (scalingFactor plan target)) ∧
    (adjustedPlan plan target).targetMacros =
      calculateTotalMacros (plan.meals.map (adjustedMeal (scalingFactor plan target))) ∧
    (adjustedPlan plan target).id = plan.id ∧
    (adjustedPlan plan target).userId = plan.userId ∧
    (adjustedPlan plan target).name = plan.name ∧
    (adjustedPlan plan target).description = plan.description ∧
    (adjustedPlan plan target).goal = plan.goal ∧
    (adjustedPlan plan target).restrictions = plan.restrictions :=
  ⟨rfl, rfl, rfl, rfl, rfl, rfl, rfl, rfl, rfl⟩

/-- C1 witness: samplePlan (2000 kcal) rescaled to 3000. -/
theorem adjustedPlan_rescale_exact_witness :
    (adjustedPlan samplePlan 3000).totalCalories = 3000 ∧
    (adjustedPlan samplePlan 3000).userId = samplePlan.userId :=
  have h := adjustedPlan_rescale_exact samplePlan 3000 (by decide) (by decide) (by decide)
  ⟨h.1, h.2.2.2.2.1⟩

/-- C5: for every plan with positive total and valid target, the rescaled
plan's targetMacros equals the aggregate (left-fold sum over protein, carbs,
fat, and fiber with absent fiber counted as 0) of the already-scaled meals. -/
theorem rescaled_targetMacros_aggregate (plan : DietPlan) (target : ℤ)
    (_hpos : 0 < plan.totalCalories) (_hlo : 1000 ≤ target) (_hhi : target ≤ 5000) :
    calculateTotalMacros ((adjustedPlan plan target).meals) =
      (adjustedPlan plan target).targetMacros := rfl

/-- C5 witness: samplePlan rescaled to 1500. -/
theorem rescaled_targetMacros_aggregate_witness :
    calculateTotalMacros ((adjustedPlan samplePlan 1500).meals) =
      (adjustedPlan samplePlan 1500).targetMacros :=
  rescaled_targetMacros_aggregate samplePlan 1500 (by decide) (by decide) (by decide)

/-- C9: generation saves exactly the built plan; its totalCalories is the
request's calorie target regardless of what the provider's meals sum to, its
targetMacros is the unscaled aggregate of the provider's meals, and the
provider's meals are stored verbatim (no rescaling toward the target). -/
theorem generateDiet_target_and_unscaled_aggregate (dto : GenerateDietDto)
    (aiResponse : AiDietResponse) :
    (DietService.generateDiet dto aiResponse).2 =
      [StoreOp.saveDiet (dietPlanOf dto aiResponse)] ∧
    (dietPlanOf dto aiResponse).totalCalories = dto.calories ∧
    (dietPlanOf dto aiResponse).targetMacros = calculateTotalMacros aiResponse.meals ∧
    (dietPlanOf dto aiResponse).meals = aiResponse.meals ∧
    (DietService.generateDiet dto aiResponse).1 =
      createSuccessResponse (dietPlanOf dto aiResponse)
        (some "Diet plan generated successfully") :=
  ⟨rfl, rfl, rfl, rfl, rfl⟩

/-- C6: a non-numeric (NaN) or out-of-range calories path parameter makes the
controller return the failure envelope with the exact message "Invalid calories
value. Must be between 1000 and 5000.", the same for every store content, and
with no store operation performed (the core is never invoked). -/
theorem controller_rejects_invalid_calories
    (store : String → Option DietPlan) (planId : String) (parsedCalories : Option ℤ)
    (h : parsedCalories = none ∨
         ∃ n : ℤ, parsedCalories = some n ∧ (n < 1000 ∨ 5000 < n)) :
    DietController.adjustCalories store planId parsedCalories =
      ({ success := false, data := none
         error := some "Invalid calories value. Must be between 1000 and 5000."
         message := none }, []) := by
  rcases h with h | ⟨n, hn, hrange⟩
  · rw [h]; rfl
  · rw [hn]
    have hcond : n < 1000 ∨ n > 5000 := hrange
    simp only [DietController.adjustCalories]
    rw [if_pos hcond]

/-- C6 witness: the spec's example value 500, against an empty store. -/
theorem controller_rejects_invalid_calories_witness :
    DietController.adjustCalories (fun _ => none) "plan-1" (some 500) =
      ({ success := false, data := none
         error := some "Invalid calories value. Must be between 1000 and 5000."
         message := none }, []) :=
  controller_rejects_invalid_calories (fun _ => none) "plan-1" (some 500)
    (Or.inr ⟨500, rfl, Or.inl (by decide)⟩)

/-- C2 evidence (code bug): the service has no InvalidState/DivisionByZero
guard. On a stored plan whose totalCalories is 0 the call to adjustCalories
returns a success envelope, and under JavaScript number semantics the scaling
factor 2000 / 0 is Infinity, a 300-calorie item rounds to Infinity and a
0-calorie item to NaN (0 * Infinity): the operation does not fail and does
produce non-finite nutritional values. -/
theorem adjustCalories_zero_total_unguarded :
    (DietService.adjustCalories zeroTotalStore "plan-0" 2000).1.success = true ∧
    jsDiv (2000 : ℚ) ((zeroTotalPlan.totalCalories : ℤ) : ℚ) = JsNum.posInf ∧
    scaledCaloriesJs 300 zeroTotalPlan.totalCalories 2000 = JsNum.posInf ∧
    scaledCaloriesJs 0 zeroTotalPlan.totalCalories 2000 = JsNum.nan := by
  refine ⟨rfl, ?_, ?_, ?_⟩ <;>
    norm_num [scaledCaloriesJs, jsDiv, jsMulInt, jsRoundExt, zeroTotalPlan]

/-- C3 counterexample: in zeroMacroPlan the only item's protein is present with
value 0; after rescaling from 2000 to 3000 kcal that item's protein is absent
in the output, so a field present in the input does not always remain present. -/
theorem rescale_drops_present_zero_protein :
    zeroMacroPlan.meals.headI.items.headI.protein = some 0 ∧
    (adjustedPlan zeroMacroPlan 3000).meals.headI.items.headI.protein = none := by
  refine ⟨rfl, ?_⟩
  norm_num [adjustedPlan, adjustedMeal, adjustedItem, scaleIfTruthy, scalingFactor,
    zeroMacroPlan, List.headI]

/-- C3 amended: rescaling scales every item's calories by the factor under the
rounding rule; each optional macro (item protein/carbs/fat, meal fiber) is
scaled exactly when it is present with a nonzero value; an absent field stays
absent, a present nonzero field stays present with the scaled value, but a
present zero-valued field becomes absent (the code guards by truthiness, not by
definedness); and a meal's items are the pointwise scaled items. -/
theorem adjusted_optional_macro_characterization (factor : ℚ)
    (item : NutritionItem) (meal : Meal) :
    (adjustedItem factor item).calories = jsRound ((item.calories : ℚ) * factor) ∧
    (item.protein = none → (adjustedItem factor item).protein = none) ∧
    (item.protein = some 0 → (adjustedItem factor item).protein = none) ∧
    (∀ n : ℤ, n ≠ 0 → item.protein = some n →
      (adjustedItem factor item).protein = some (jsRound ((n : ℚ) * factor))) ∧
    (item.carbs = none → (adjustedItem factor item).carbs = none) ∧
    (item.carbs = some 0 → (adjustedItem factor item).carbs = none) ∧
    (∀ n : ℤ, n ≠ 0 → item.carbs = some n →
      (adjustedItem factor item).carbs = some (jsRound ((n : ℚ) * factor))) ∧
    (item.fat = none → (adjustedItem factor item).fat = none) ∧
    (item.fat = some 0 → (adjustedItem factor item).fat = none) ∧
    (∀ n : ℤ, n ≠ 0 → item.fat = some n →
      (adjustedItem factor item).fat = some (jsRound ((n : ℚ) * factor))) ∧
    (meal.macros.fiber = none → (adjustedMeal factor meal).macros.fiber = none) ∧
    (meal.macros.fiber = some 0 → (adjustedMeal factor meal).macros.fiber = none) ∧
    (∀ n : ℤ, n ≠ 0 → meal.macros.fiber = some n →
      (adjustedMeal factor meal).macros.fiber = some (jsRound ((n : ℚ) * factor))) ∧
    (adjustedMeal factor meal).items = meal.items.map (adjustedItem factor) ∧
    (adjustedMeal factor meal).totalCalories = jsRound ((meal.totalCalories : ℚ) * factor) := by
  refine ⟨rfl, ?_, ?_, ?_, ?_, ?_, ?_, ?_, ?_, ?_, ?_, ?_, ?_, rfl, rfl⟩ <;>
    first
      | (intro h; simp [adjustedItem, adjustedMeal, scaleIfTruthy, h])
      | (intro n hn h; simp [adjustedItem, adjustedMeal, scaleIfTruthy, h, hn])

/-- C3 witness: the present nonzero protein (10 g) of samplePlan's item stays
present at factor 3000/2000 and is scaled to 15 g. -/
theorem adjusted_optional_macro_characterization_witness :
    (adjustedItem (scalingFactor samplePlan 3000)
      samplePlan.meals.headI.items.headI).protein = some 15 := by
  have h := (adjusted_optional_macro_characterization (scalingFactor samplePlan 3000)
    samplePlan.meals.headI.items.headI samplePlan.meals.headI).2.2.2.1 10 (by decide) rfl
  rw [h]
  norm_num [samplePlan, scalingFactor, jsRound, List.headI]

/-- C10: after adjustCalories every optional macro that was present with value
exactly 0 is absent in the output: for each meal of the plan and each item of
that meal, the scaled meal is among the output plan's meals, the scaled item
among the scaled meal's items, and zero-valued protein, carbs, fat and fiber
come out as undefined (presence is tested by truthiness). -/
theorem adjustCalories_zero_macros_become_absent (plan : DietPlan) (target : ℤ)
    (meal : Meal) (hm : meal ∈ plan.meals) (item : NutritionItem)
    (hi : item ∈ meal.items) :
    adjustedMeal (scalingFactor plan target) meal ∈ (adjustedPlan plan target).meals ∧
    adjustedItem (scalingFactor plan target) item ∈
      (adjustedMeal (scalingFactor plan target) meal).items ∧
    (item.protein = some 0 →
      (adjustedItem (scalingFactor plan target) item).protein = none) ∧
    (item.carbs = some 0 → (adjustedItem (scalingFactor plan target) item).carbs = none) ∧
    (item.fat = some 0 → (adjustedItem (scalingFactor plan target) item).fat = none) ∧
    (meal.macros.fiber = some 0 →
      (adjustedMeal (scalingFactor plan target) meal).macros.fiber = none) := by
  refine ⟨?_, ?_, ?_, ?_, ?_, ?_⟩
  · exact List.mem_map.mpr ⟨meal, hm, rfl⟩
  · simp only [adjustedMeal]
    exact List.mem_map.mpr ⟨item, hi, rfl⟩
  · intro h; simp [adjustedItem, scaleIfTruthy, h]
  · intro h; simp [adjustedItem, scaleIfTruthy, h]
  · intro h; simp [adjustedItem, scaleIfTruthy, h]
  · intro h; simp [adjustedMeal, scaleIfTruthy, h]

/-- C10 witness: zeroMacroPlan's zero-protein item comes out with protein
absent when the plan is rescaled to 3000. -/
theorem adjustCalories_zero_macros_become_absent_witness :
    (adjustedItem (scalingFactor zeroMacroPlan 3000)
      zeroMacroPlan.meals.headI.items.headI).protein = none := by
  have h := adjustCalories_zero_macros_become_absent zeroMacroPlan 3000
    zeroMacroPlan.meals.headI (by simp [zeroMacroPlan])
    zeroMacroPlan.meals.headI.items.headI (by simp [zeroMacroPlan])
  exact h.2.2.1 rfl

/-- C4 counterexample: rescaling idemBreakPlan (5000 kcal) to 1000 leaves a
present protein of 0 g (2 g scaled by 1/5 rounds to 0); rescaling the result to
1000 again drops that protein entirely, so the double rescale differs from the
single one and the claimed identity fails. -/
theorem rescale_not_idempotent_at_1000 :
    (adjustedPlan idemBreakPlan 1000).meals.headI.items.headI.protein = some 0 ∧
    (adjustedPlan (adjustedPlan idemBreakPlan 1000)
      1000).meals.headI.items.headI.protein = none ∧
    adjustedPlan (adjustedPlan idemBreakPlan 1000) 1000 ≠
      adjustedPlan idemBreakPlan 1000 := by
  have h1 : (adjustedPlan idemBreakPlan 1000).meals.headI.items.headI.protein = some 0 := by
    norm_num [adjustedPlan, adjustedMeal, adjustedItem, scaleIfTruthy, scalingFactor,
      jsRound, idemBreakPlan, List.headI]
  have h2 : (adjustedPlan (adjustedPlan idemBreakPlan 1000)
      1000).meals.headI.items.headI.protein = none := by
    norm_num [adjustedPlan, adjustedMeal, adjustedItem, scaleIfTruthy, scalingFactor,
      jsRound, idemBreakPlan, List.headI, calculateTotalMacros, jsOrInt]
  refine ⟨h1, h2, fun heq => ?_⟩
  rw [heq, h1] at h2
  exact Option.noConfusion h2

/-- C4 amended: for every plan with positive total and target in [1000, 5000],
rescaling twice to the same target equals rescaling once, provided the
once-rescaled plan holds no present-but-zero optional macro; when it does, the
second rescale turns exactly those fields absent (see the counterexample), so
the identity holds only under that proviso. -/
theorem rescale_idempotent_of_no_zero_macros (plan : DietPlan) (target : ℤ)
    (_hpos : 0 < plan.totalCalories) (hlo : 1000 ≤ target) (hhi : target ≤ 5000)
    (hz : planNoZeroOpt (adjustedPlan plan target)) :
    adjustedPlan (adjustedPlan plan target) target = adjustedPlan plan target := by
  have hT : (target : ℚ) ≠ 0 := by
    have h0 : target ≠ 0 := by omega
    exact_mod_cast h0
  have key : ∀ q : DietPlan, q.totalCalories = target →
      q.targetMacros = calculateTotalMacros q.meals → planNoZeroOpt q →
      adjustedPlan q target = q := by
    intro q h1 h2 h3
    have hfac : scalingFactor q target = 1 := by
      unfold scalingFactor
      rw [h1]
      exact div_self hT
    have hmeals : q.meals.map (adjustedMeal 1) = q.meals :=
      map_self_of_mem _ _ (fun m hm => adjustedMeal_one m (h3 m hm))
    show { q with
        totalCalories := target
        meals := q.meals.map (adjustedMeal (scalingFactor q target))
        targetMacros :=
          calculateTotalMacros (q.meals.map (adjustedMeal (scalingFactor q target))) } = q
    rw [hfac, hmeals, ← h2, ← h1]
  exact key _ rfl rfl hz

/-- C4 witness: idemOkPlan (1000 kcal) rescaled to 2000 twice equals once. -/
theorem rescale_idempotent_of_no_zero_macros_witness :
    adjustedPlan (adjustedPlan idemOkPlan 2000) 2000 = adjustedPlan idemOkPlan 2000 :=
  rescale_idempotent_of_no_zero_macros idemOkPlan 2000 (by decide) (by decide) (by decide)
    (by norm_num [planNoZeroOpt, mealNoZeroOpt, itemNoZeroOpt, adjustedPlan,
      adjustedMeal, adjustedItem, scaleIfTruthy, scalingFactor, jsRound, idemOkPlan,
      List.headI] <;> decide)

/-- C7 counterexample: with modifications whose goal is the present empty
string and whose calories is the present 0, the merged request keeps the
existing plan's goal "bulk" and calories 2500: a present field is not taken
when it is falsy, so a merge keyed on presence (not undefined/unset) is not
what the code computes. -/
theorem regenerate_merge_present_falsy_ignored :
    falsyDietMods.goal = some "" ∧
    falsyDietMods.calories = some 0 ∧
    (regenerateDietDto mergeDietPlanEx falsyDietMods).goal = "bulk" ∧
    (regenerateDietDto mergeDietPlanEx falsyDietMods).calories = 2500 := by
  refine ⟨rfl, rfl, ?_, ?_⟩ <;> decide

/-- C7 amended: the merged generation request takes userId from the existing
plan; calories and goal (diet) and goal, difficulty, daysPerWeek and duration
(workout) come from the modifications exactly when present AND truthy — a
present 0 or empty string falls back to the existing plan's mapped field
(calories ↔ totalCalories, duration ↔ estimatedDuration, the rest 1:1);
restrictions come from the modifications whenever present (arrays are always
truthy); and the prompt-only fields pass through from the modifications. -/
theorem regenerate_merge_field_mapping (existingPlan : DietPlan)
    (modifications : DietMods) (wPlan : WorkoutPlan) (wMods : WorkoutMods) :
    (regenerateDietDto existingPlan modifications).userId = existingPlan.userId ∧
    ((modifications.calories = none ∨ modifications.calories = some 0) →
      (regenerateDietDto existingPlan modifications).calories =
        existingPlan.totalCalories) ∧
    (∀ n : ℤ, n ≠ 0 → modifications.calories = some n →
      (regenerateDietDto existingPlan modifications).calories = n) ∧
    ((modifications.goal = none ∨ modifications.goal = some "") →
      (regenerateDietDto existingPlan modifications).goal = existingPlan.goal) ∧
    (∀ s : String, s ≠ "" → modifications.goal = some s →
      (regenerateDietDto existingPlan modifications).goal = s) ∧
    (modifications.restrictions = none →
      (regenerateDietDto existingPlan modifications).restrictions =
        some existingPlan.restrictions) ∧
    (∀ l : List String, modifications.restrictions = some l →
      (regenerateDietDto existingPlan modifications).restrictions = some l) ∧
    (regenerateDietDto existingPlan modifications).mealsPerDay =
      modifications.mealsPerDay ∧
    (regenerateDietDto existingPlan modifications).targetProtein =
      modifications.targetProtein ∧
    (regenerateDietDto existingPlan modifications).preferredFoods =
      modifications.preferredFoods ∧
    (regenerateDietDto existingPlan modifications).avoidFoods =
      modifications.avoidFoods ∧
    (regenerateDietDto existingPlan modifications).preferences =
      modifications.preferences ∧
    (regenerateWorkoutDto wPlan wMods).userId = wPlan.userId ∧
    ((wMods.goal = none ∨ wMods.goal = some "") →
      (regenerateWorkoutDto wPlan wMods).goal = wPlan.goal) ∧
    (∀ s : String, s ≠ "" → wMods.goal = some s →
      (regenerateWorkoutDto wPlan wMods).goal = s) ∧
    ((wMods.difficulty = none ∨ wMods.difficulty = some "") →
      (regenerateWorkoutDto wPlan wMods).difficulty = wPlan.difficulty) ∧
    (∀ s : String, s ≠ "" → wMods.difficulty = some s →
      (regenerateWorkoutDto wPlan wMods).difficulty = s) ∧
    ((wMods.daysPerWeek = none ∨ wMods.daysPerWeek = some 0) →
      (regenerateWorkoutDto wPlan wMods).daysPerWeek = wPlan.daysPerWeek) ∧
    (∀ n : ℤ, n ≠ 0 → wMods.daysPerWeek = some n →
      (regenerateWorkoutDto wPlan wMods).daysPerWeek = n) ∧
    ((wMods.duration = none ∨ wMods.duration = some 0) →
      (regenerateWorkoutDto wPlan wMods).duration = wPlan.estimatedDuration) ∧
    (∀ n : ℤ, n ≠ 0 → wMods.duration = some n →
      (regenerateWorkoutDto wPlan wMods).duration = n) ∧
    (regenerateWorkoutDto wPlan wMods).equipment = wMods.equipment ∧
    (regenerateWorkoutDto wPlan wMods).targetMuscles = wMods.targetMuscles ∧
    (regenerateWorkoutDto wPlan wMods).preferences = wMods.preferences := by
  refine ⟨rfl, ?_, ?_, ?_, ?_, ?_, ?_, rfl, rfl, rfl, rfl, rfl, rfl, ?_, ?_, ?_, ?_,
    ?_, ?_, ?_, ?_, rfl, rfl, rfl⟩ <;>
    first
      | (rintro (h | h) <;>
          simp [regenerateDietDto, regenerateWorkoutDto, jsOrInt, jsOrStr, jsOrList, h])
      | (intro h;
          simp [regenerateDietDto, regenerateWorkoutDto, jsOrInt, jsOrStr, jsOrList, h])
      | (intro x hx h;
          simp [regenerateDietDto, regenerateWorkoutDto, jsOrInt, jsOrStr, jsOrList, h, hx])
      | (intro x h;
          simp [regenerateDietDto, regenerateWorkoutDto, jsOrInt, jsOrStr, jsOrList, h])

/-- C7 witness: the spec's merge example — modifications carrying only goal
"cut" merged into the 2500 kcal "bulk" diet plan yield userId "u1", goal "cut"
and calories 2500; the workout side keeps estimatedDuration 45 as duration. -/
theorem regenerate_merge_field_mapping_witness :
    (regenerateDietDto mergeDietPlanEx cutDietMods).userId = "u1" ∧
    (regenerateDietDto mergeDietPlanEx cutDietMods).goal = "cut" ∧
    (regenerateDietDto mergeDietPlanEx cutDietMods).calories = 2500 ∧
    (regenerateWorkoutDto mergeWorkoutPlanEx cutWorkoutMods).duration = 45 := by
  have h := regenerate_merge_field_mapping mergeDietPlanEx cutDietMods
    mergeWorkoutPlanEx cutWorkoutMods
  refine ⟨h.1.trans rfl, ?_, ?_, ?_⟩
  · exact h.2.2.2.2.1 "cut" (by decide) rfl
  · exact (h.2.1 (Or.inl rfl)).trans rfl
  · exact (h.2.2.2.2.2.2.2.2.2.2.2.2.2.2.2.2.2.2.2.1 (Or.inl rfl)).trans rfl

/-- C8: the merged regeneration request's userId is always the stored existing
plan's userId, and two modification records that agree outside their userId
field produce identical merged requests — for diet and workout alike,
regeneration cannot change plan ownership. -/
theorem regenerate_ownership_invariant (existingPlan : DietPlan) (m1 m2 : DietMods)
    (wPlan : WorkoutPlan) (w1 w2 : WorkoutMods)
    (hd : dropUserIdDiet m1 = dropUserIdDiet m2)
    (hw : dropUserIdWorkout w1 = dropUserIdWorkout w2) :
    (regenerateDietDto existingPlan m1).userId = existingPlan.userId ∧
    regenerateDietDto existingPlan m1 = regenerateDietDto existingPlan m2 ∧
    (regenerateWorkoutDto wPlan w1).userId = wPlan.userId ∧
    regenerateWorkoutDto wPlan w1 = regenerateWorkoutDto wPlan w2 := by
  obtain ⟨u1, c1, g1, r1, mp1, tp1, pf1, af1, p1⟩ := m1
  obtain ⟨u2, c2, g2, r2, mp2, tp2, pf2, af2, p2⟩ := m2
  obtain ⟨v1, wg1, wd1, wk1, wu1, we1, wt1, wp1⟩ := w1
  obtain ⟨v2, wg2, wd2, wk2, wu2, we2, wt2, wp2⟩ := w2
  simp only [dropUserIdDiet, dropUserIdWorkout, DietMods.mk.injEq,
    WorkoutMods.mk.injEq, true_and] at hd hw
  obtain ⟨hc, hg, hr, hmp, htp, hpf, haf, hp⟩ := hd
  obtain ⟨hwg, hwd, hwk, hwu, hwe, hwt, hwp⟩ := hw
  subst hc hg hr hmp htp hpf haf hp hwg hwd hwk hwu hwe hwt hwp
  exact ⟨rfl, rfl, rfl, rfl⟩

/-- C8 witness: modification records differing only in userId ("u2" vs "u3")
merge identically on the example plans, and ownership stays "u1". -/
theorem regenerate_ownership_invariant_witness :
    (regenerateDietDto mergeDietPlanEx
      { emptyDietMods with userId := some "u2" }).userId = "u1" ∧
    regenerateDietDto mergeDietPlanEx { emptyDietMods with userId := some "u2" } =
      regenerateDietDto mergeDietPlanEx { emptyDietMods with userId := some "u3" } := by
  have h := regenerate_ownership_invariant mergeDietPlanEx
    { emptyDietMods with userId := some "u2" }
    { emptyDietMods with userId := some "u3" }
    mergeWorkoutPlanEx { emptyWorkoutMods with userId := some "u2" }
    { emptyWorkoutMods with userId := some "u3" } rfl rfl
  exact ⟨h.1.trans rfl, h.2.1⟩

end LevelUpAI
